import Mathlib

set_option maxRecDepth 4000
set_option maxHeartbeats 1000000

/- Verification of the dialogue-orchestration core of backend/app/main.py:
the transient preference store, the offline onboarding/fetch script, the
OpenAI tool-calling loop, and the /chat turn boundary.  Outbound network
calls (Exa search, OpenAI responses, OpenAI chat completions) are modelled
as oracles carried in a Config record; everything the program computes
in-process is translated directly from the source. -/

namespace NewsAgent

/-- JSON-style values as they occur in the preferences mapping
(`Dict[str, Any]` restricted to the shapes the program manipulates). -/
inductive Val where
  | vStr : String → Val
  | vList : List String → Val
  | vNull : Val
  | vBool : Bool → Val
  | vNum : Int → Val
  deriving DecidableEq

/-- Python truthiness of a value, as used by `if not updated.get(key)`. -/
def truthy : Val → Bool
  | Val.vStr s => !(s == (""))
  | Val.vList l => !(l.isEmpty)
  | Val.vNull => false
  | Val.vBool b => b
  | Val.vNum n => !(n == 0)

def truthyOpt : Option Val → Bool
  | some v => truthy v
  | none => false

/-- A preferences dict: association list in insertion order, mirroring a
Python dict (the operations of the program create no duplicate keys). -/
abbrev Prefs := List (String × Val)

/-- Dict lookup `d.get(k)` (returns `none` when the key is absent). -/
def pget : Prefs → String → Option Val
  | [], _ => none
  | kv :: rest, k => if kv.1 = k then some kv.2 else pget rest k

/-- Dict assignment `d[k] = v`: overwrite in place keeping the position of the key,
or append a fresh key at the end (dict insertion order). -/
def pset (p : Prefs) (k : String) (v : Val) : Prefs :=
  if (p.map Prod.fst).contains k then
    p.map (fun kv => if kv.1 = k then (k, v) else kv)
  else p ++ [(k, v)]

/-- `str(value)` as produced by Python f-string interpolation. -/
def pyStr : Val → String
  | Val.vStr s => s
  | Val.vList l =>
      ("[") ++ String.intercalate (", ") (l.map (fun s => ("\x27") ++ s ++ ("\x27"))) ++ ("]")
  | Val.vNull => ("None")
  | Val.vBool b => if b then ("True") else ("False")
  | Val.vNum n => toString n

/-- `prefs.get(k, default)`, coerced to the string that the call site
passes on (the stored value when present, the default otherwise). -/
def pgetStr (p : Prefs) (k : String) (d : String) : String :=
  match pget p k with
  | some v => pyStr v
  | none => d

/-- The Python method `str.split` at a comma: split on every comma, keeping empty parts. -/
def splitCommaAux : List Char → List Char → List String
  | [], acc => [String.mk acc.reverse]
  | c :: rest, acc =>
      if c = (',') then String.mk acc.reverse :: splitCommaAux rest []
      else splitCommaAux rest (c :: acc)

def splitComma (s : String) : List String := splitCommaAux s.data []

/-- The whitespace set stripped by the Python method `str.strip` (ASCII part). -/
def isSpaceChar (c : Char) : Bool :=
  (c == (' ')) || (c == (Char.ofNat 9)) || (c == (Char.ofNat 10)) ||
    (c == (Char.ofNat 13)) || (c == (Char.ofNat 11)) || (c == (Char.ofNat 12))

/-- The Python method `str.strip`. -/
def pyStrip (s : String) : String :=
  String.mk (((s.data.dropWhile isSpaceChar).reverse.dropWhile isSpaceChar).reverse)

/-- `[s.strip() for s in value.split(",") if s.strip()]` (main.py:289). -/
def splitTopics (s : String) : List String :=
  ((splitComma s).map pyStrip).filter (fun t => !(t == ("")))

/-- The five recognized preference keys, in the order the save loop and the
onboarding script traverse them (main.py:286, main.py:126-132). -/
def recognizedKeys : List String :=
  [("tone"), ("format"), ("language"), ("interaction"), ("topics")]

/-- One iteration of the `save_preferences` update loop (main.py:286-291):
skip keys absent from the arguments or bound to null; comma-split a string
`topics` value; store every other present value unchanged. -/
def saveStep (fargs : Prefs) (prefs : Prefs) (k : String) : Prefs :=
  match pget fargs k with
  | none => prefs
  | some v =>
      if v = Val.vNull then prefs
      else if k = ("topics") then
        match v with
        | Val.vStr s => pset prefs k (Val.vList (splitTopics s))
        | _ => pset prefs k v
      else pset prefs k v

/-- The `save_preferences` tool body (main.py:284-292): fold the update
loop over the five recognized keys. -/
def save_preferences (prefs : Prefs) (fargs : Prefs) : Prefs :=
  recognizedKeys.foldl (saveStep fargs) prefs

/-- An article record as projected from an Exa result (main.py:62-67). -/
structure Article where
  title : Option String
  url : Option String
  summary : Option String
  publishedDate : Option String
  deriving DecidableEq

/-- Outcome of `exa_news_fetch` (main.py:42-70): the function returns
either `\x7b"results": [...]\x7d` or `\x7b"error": msg\x7d`, never raising. -/
inductive ExaResult where
  | results : List Article → ExaResult
  | error : String → ExaResult
  deriving DecidableEq

/-- Outcome of `summarize_news` (main.py:73-114): always a summary text,
optionally with a warning attached when the provider call failed. -/
structure SummResult where
  summary : String
  warning : Option String
  deriving DecidableEq

/-- One entry of the `oai_messages` transcript sent to the reasoning model
(main.py:234-238, 297-304); `tool_call_id` is present on tool results only. -/
structure OaiMsg where
  role : String
  content : String
  tool_call_id : Option String
  deriving DecidableEq

/-- A tool invocation requested by the reasoning model, with its JSON
arguments already decoded (main.py:272-273). -/
inductive ToolCallReq where
  | fetchNews (topic : String) (numResults : Option Nat)
  | summarizeNews (items : List Article)
      (style format_ language tone : Option String)
  | savePrefs (fargs : Prefs)
  | unknown (toolName : String)
  deriving DecidableEq

structure ToolCall where
  req : ToolCallReq
  id : String
  deriving DecidableEq

/-- `data["choices"][0]["message"]`: assistant text plus requested tool
calls (an empty list models an absent/empty `tool_calls` field, which the
code treats identically via truthiness, main.py:268-270). -/
structure ModelMsg where
  content : String
  tool_calls : List ToolCall
  deriving DecidableEq

/-- A parsed HTTP response from the chat-completions endpoint: its status
code, the diagnostic detail rendered at main.py:257-260, and the parsed
assistant message. -/
structure HttpResp where
  status : Nat
  detail : String
  message : ModelMsg
  deriving DecidableEq

/-- Process configuration plus the three outbound-network oracles.
`openaiConfigured` is `OPENAI_API_KEY` being non-empty; `exa_news_fetch`
stands for the whole network-calling function of that name (its contract:
it returns a result or error value, never raises); `openai_responses` is
the configured branch of `summarize_news` (main.py:82-114), which likewise
always returns; `chat_completions` is `requests.post` to the
chat-completions endpoint, `Except.error` being a raised transport
exception (main.py:255). -/
structure Config where
  openaiConfigured : Bool
  exa_news_fetch : String → Nat → ExaResult
  openai_responses : List Article → String → String → String → String → SummResult
  chat_completions : List OaiMsg → Except String HttpResp

/-- One bullet of the offline fallback (main.py:77-79):
an f-string rendering a missing title as the text None, and an empty or
missing summary as the text No summary available. -/
def bulletLine (it : Article) : String :=
  ("- ") ++ (match it.title with | some t => t | none => ("None")) ++ (": ") ++
    (match it.summary with
     | some s => if s = ("") then ("No summary available") else s
     | none => ("No summary available"))

/-- `summarize_news` (main.py:73-114): with no OpenAI key, the
deterministic bullet rendering; otherwise one call to the /v1/responses
endpoint, modelled by the `openai_responses` oracle. -/
def summarize_news (cfg : Config) (items : List Article)
    (style format_ language tone : String) : SummResult :=
  if cfg.openaiConfigured = false then
    ⟨String.intercalate ("\n") (items.map bulletLine), none⟩
  else cfg.openai_responses items style format_ language tone

/-- The onboarding question table (main.py:126-132), in source order. -/
def questions : List (String × String) :=
  [(("tone"), ("Preferred Tone of Voice (e.g., formal, casual, enthusiastic)?")),
   (("format"), ("Preferred Response Format (e.g., bullet points, paragraphs)?")),
   (("language"), ("Language Preference (e.g., English, Spanish)?")),
   (("interaction"), ("Interaction Style (e.g., concise, detailed)?")),
   (("topics"), ("Preferred News Topics (e.g., technology, sports, politics)?"))]

/-- What `openai_chat_with_tools` hands back to `/chat` (main.py:135-138,
153-156, 261-264, 309-312). -/
structure OrchResult where
  assistant_message : String
  preferences : Prefs
  deriving DecidableEq

/-- The offline heuristic branch of `openai_chat_with_tools`
(main.py:123-156): ask the first onboarding question whose key is unset;
once all five are set, fetch each topic and accumulate per-topic sections. -/
def offlineTurn (cfg : Config) (preferences : Prefs) : OrchResult :=
  let updated := preferences
  match questions.find? (fun kq => !truthyOpt (pget updated kq.1)) with
  | some kq => ⟨kq.2, updated⟩
  | none =>
      let topics := pget updated ("topics")
      let tlist : List String :=
        match topics with
        | some (Val.vList l) => l
        | some v => [pyStr v]
        | none => [pyStr Val.vNull]
      let result_texts := tlist.map (fun topic =>
        match cfg.exa_news_fetch topic 5 with
        | ExaResult.results rs =>
            ("Topic: ") ++ topic ++ ("\n") ++
              (summarize_news cfg rs (pgetStr updated ("interaction") ("concise"))
                (pgetStr updated ("format") ("bullet points"))
                (pgetStr updated ("language") ("English"))
                (pgetStr updated ("tone") ("neutral"))).summary
        | ExaResult.error e => ("Topic: ") ++ topic ++ ("\nExa error: ") ++ e)
      ⟨String.intercalate ("\n\n") result_texts, updated⟩

/-- One hex digit, used by the `json.dumps` escape model. -/
def hexDigit (n : Nat) : Char := (("0123456789abcdef").data).getD n ('0')

def hex4 (n : Nat) : String :=
  String.mk [hexDigit (n / 4096 % 16), hexDigit (n / 256 % 16),
    hexDigit (n / 16 % 16), hexDigit (n % 16)]

/-- `json.dumps` escaping of one character (default ensure_ascii=True). -/
def jsonEscChar (c : Char) : String :=
  if c = Char.ofNat 34 then ("\\\"")
  else if c = Char.ofNat 92 then ("\\\\")
  else if c = Char.ofNat 10 then ("\\n")
  else if c = Char.ofNat 13 then ("\\r")
  else if c = Char.ofNat 9 then ("\\t")
  else if c = Char.ofNat 8 then ("\\b")
  else if c = Char.ofNat 12 then ("\\f")
  else if c.toNat < 32 then ("\\u") ++ hex4 c.toNat
  else if c.toNat ≤ 126 then String.singleton c
  else if c.toNat < 65536 then ("\\u") ++ hex4 c.toNat
  else ("\\u") ++ hex4 (55296 + (c.toNat - 65536) / 1024) ++
    ("\\u") ++ hex4 (56320 + (c.toNat - 65536) % 1024)

/-- `json.dumps` of a string. -/
def jsonStr (s : String) : String :=
  ("\"") ++ String.join (s.data.map jsonEscChar) ++ ("\"")

/-- `json.dumps` of one preference value. -/
def valDumps : Val → String
  | Val.vStr s => jsonStr s
  | Val.vList l => ("[") ++ String.intercalate (", ") (l.map jsonStr) ++ ("]")
  | Val.vNull => ("null")
  | Val.vBool b => if b then ("true") else ("false")
  | Val.vNum n => toString n

/-- `json.dumps` of a preferences dict (default separators `, ` / `: `). -/
def prefsDumps (p : Prefs) : String :=
  ("\x7b") ++
    String.intercalate (", ")
      (p.map (fun kv => jsonStr kv.1 ++ (": ") ++ valDumps kv.2)) ++
    ("\x7d")

def optStrDumps : Option String → String
  | some s => jsonStr s
  | none => ("null")

/-- `json.dumps` of one projected article record (key insertion order of
main.py:62-67). -/
def articleDumps (a : Article) : String :=
  ("\x7b\"title\": ") ++ optStrDumps a.title ++
    (", \"url\": ") ++ optStrDumps a.url ++
    (", \"summary\": ") ++ optStrDumps a.summary ++
    (", \"publishedDate\": ") ++ optStrDumps a.publishedDate ++ ("\x7d")

def exaResultDumps : ExaResult → String
  | ExaResult.results rs =>
      ("\x7b\"results\": [") ++ String.intercalate (", ") (rs.map articleDumps) ++ ("]\x7d")
  | ExaResult.error e => ("\x7b\"error\": ") ++ jsonStr e ++ ("\x7d")

def summResultDumps (r : SummResult) : String :=
  match r.warning with
  | none => ("\x7b\"summary\": ") ++ jsonStr r.summary ++ ("\x7d")
  | some w =>
      ("\x7b\"summary\": ") ++ jsonStr r.summary ++
        (", \"warning\": ") ++ jsonStr w ++ ("\x7d")

/-- Execute one requested tool call (main.py:271-294): dispatch on the
tool name, fill omitted summarize style fields from the current prefs,
apply `save_preferences` updates; returns the `json.dumps` of the result
dict plus the (possibly updated) prefs. -/
def execToolCall (cfg : Config) (prefs : Prefs) (tc : ToolCall) : String × Prefs :=
  match tc.req with
  | ToolCallReq.fetchNews topic n =>
      (exaResultDumps (cfg.exa_news_fetch topic (n.getD 5)), prefs)
  | ToolCallReq.summarizeNews items st fo la tn =>
      (summResultDumps (summarize_news cfg items
        (st.getD (pgetStr prefs ("interaction") ("concise")))
        (fo.getD (pgetStr prefs ("format") ("bullet points")))
        (la.getD (pgetStr prefs ("language") ("English")))
        (tn.getD (pgetStr prefs ("tone") ("neutral")))), prefs)
  | ToolCallReq.savePrefs fargs =>
      let p2 := save_preferences prefs fargs
      (("\x7b\"ok\": true, \"preferences\": ") ++ prefsDumps p2 ++ ("\x7d"), p2)
  | ToolCallReq.unknown toolName =>
      (("\x7b\"error\": ") ++ jsonStr (("Unknown tool ") ++ toolName) ++ ("\x7d"), prefs)

/-- The `for tc in tool_calls` loop (main.py:271-301): execute each call in
the order received, appending its result as a `tool` transcript entry. -/
def execToolCalls (cfg : Config) :
    List ToolCall → List OaiMsg → Prefs → List OaiMsg × Prefs
  | [], msgs, prefs => (msgs, prefs)
  | tc :: rest, msgs, prefs =>
      let rp := execToolCall cfg prefs tc
      execToolCalls cfg rest (msgs ++ [⟨("tool"), rp.1, some tc.id⟩]) rp.2

/-- The `while True` loop of `openai_chat_with_tools` (main.py:248-312),
made total by fuel: `none` means the loop is still running after `fuel`
provider round-trips; `some (Except.error e)` is an uncaught transport
exception from `requests.post`; `some (Except.ok r)` is a returned turn.
A status `≥ 400` short-circuits into a diagnostic message; otherwise the
requested tool calls are executed and one system entry with the updated
preference snapshot is appended before looping. -/
def toolLoop (cfg : Config) : Nat → List OaiMsg → Prefs → Option (Except String OrchResult)
  | 0, _, _ => none
  | fuel + 1, oai_messages, prefs =>
      match cfg.chat_completions oai_messages with
      | Except.error e => some (Except.error e)
      | Except.ok resp =>
          if 400 ≤ resp.status then
            some (Except.ok
              ⟨("OpenAI error ") ++ toString resp.status ++ (": ") ++ resp.detail, prefs⟩)
          else
            match resp.message.tool_calls with
            | [] => some (Except.ok ⟨resp.message.content, prefs⟩)
            | tc :: rest =>
                let mp := execToolCalls cfg (tc :: rest) oai_messages prefs
                toolLoop cfg fuel
                  (mp.1 ++ [⟨("system"),
                    ("Updated preferences JSON: ") ++ prefsDumps mp.2, none⟩])
                  mp.2

/-- The fixed system instruction (main.py:225-231). -/
def sys_prompt : String :=
  ("You are a Latest News Agent. First, ensure the following preferences are collected: ") ++
  ("tone, format, language, interaction, topics. Ask one question at a time until all are collected. ") ++
  ("When the user supplies a preference, call save_preferences with the structured values. ") ++
  ("After preferences are set, if the user requests news or summaries, use exa_news_fetch followed by summarize_news. ") ++
  ("Always return answers in the user\x27s preferred language, tone, interaction style, and format.")

/-- A conversation message of the turn boundary (main.py:28-30). -/
structure Message where
  role : String
  content : String
  deriving DecidableEq

/-- The initial reasoning-model transcript (main.py:234-238): system
instruction, the messages of the caller, and a preferences-snapshot note. -/
def oaiInit (messages : List Message) (preferences : Prefs) : List OaiMsg :=
  ⟨("system"), sys_prompt, none⟩ ::
    (messages.map (fun m => ⟨m.role, m.content, none⟩) ++
      [⟨("system"), ("Current preferences JSON: ") ++ prefsDumps preferences, none⟩])

/-- `openai_chat_with_tools` (main.py:118-312): the offline heuristic when
no OpenAI key is configured, otherwise the tool-calling loop seeded with
the initial transcript and a mutable copy of the preferences. -/
def openai_chat_with_tools (cfg : Config) (fuel : Nat) (messages : List Message)
    (preferences : Prefs) : Option (Except String OrchResult) :=
  if cfg.openaiConfigured = false then some (Except.ok (offlineTurn cfg preferences))
  else toolLoop cfg fuel (oaiInit messages preferences) preferences

structure ChatRequest where
  messages : List Message
  preferences : Option Prefs
  deriving DecidableEq

structure ChatResponse where
  messages : List Message
  updatedPreferences : Prefs
  deriving DecidableEq

/-- The `/chat` endpoint (main.py:315-334): default the preferences to an
empty dict, run the orchestrator, and append its reply as one assistant
message; an `Except.error` is an exception escaping the handler. -/
def chat (cfg : Config) (fuel : Nat) (req : ChatRequest) :
    Option (Except String ChatResponse) :=
  let updated := req.preferences.getD []
  match openai_chat_with_tools cfg fuel req.messages updated with
  | none => none
  | some (Except.error e) => some (Except.error e)
  | some (Except.ok result) =>
      some (Except.ok
        ⟨req.messages ++ [⟨("assistant"), result.assistant_message⟩], result.preferences⟩)

/-- Whether a turn completed with a response (as opposed to hanging or
raising). -/
def turnCompletes : Option (Except String ChatResponse) → Bool
  | some (Except.ok _) => true
  | _ => false

/-- A Mode A process (no OpenAI key) with inert oracles. -/
def cfgA : Config :=
  { openaiConfigured := false
    exa_news_fetch := fun _ _ => ExaResult.error ("")
    openai_responses := fun _ _ _ _ _ => ⟨(""), none⟩
    chat_completions := fun _ => Except.error ("") }

/-- A Mode A process whose Exa oracle succeeds for topic `ai` with one
article and fails for every other topic. -/
def cfgC4 : Config :=
  { openaiConfigured := false
    exa_news_fetch := fun t _ =>
      if t = ("ai") then ExaResult.results [⟨some ("A"), none, some ("B"), none⟩]
      else ExaResult.error ("boom")
    openai_responses := fun _ _ _ _ _ => ⟨(""), none⟩
    chat_completions := fun _ => Except.error ("") }

/-- A fully collected preference snapshot with topics `[ai, climate]`. -/
def prefsFull : Prefs :=
  [(("tone"), Val.vStr ("neutral")), (("format"), Val.vStr ("bullet points")),
   (("language"), Val.vStr ("English")), (("interaction"), Val.vStr ("concise")),
   (("topics"), Val.vList [("ai"), ("climate")])]

/-- A Mode B process whose chat-completions call raises a transport
exception. -/
def cfgBfail : Config :=
  { openaiConfigured := true
    exa_news_fetch := fun _ _ => ExaResult.error ("")
    openai_responses := fun _ _ _ _ _ => ⟨(""), none⟩
    chat_completions := fun _ => Except.error ("Connection timed out") }

def reqW : ChatRequest := ⟨[⟨("user"), ("hi")⟩], none⟩

/-- The response `/chat` produces for `reqW` under `cfgA` (onboarding asks
for the tone first). -/
def rW : ChatResponse :=
  ⟨[⟨("user"), ("hi")⟩,
    ⟨("assistant"), ("Preferred Tone of Voice (e.g., formal, casual, enthusiastic)?")⟩], []⟩

def reqC5msgs : List Message :=
  [⟨("user"), ("I want a formal tone and tech,sports topics")⟩]

def tcC5a : ToolCall := ⟨ToolCallReq.savePrefs [(("tone"), Val.vStr ("formal"))], ("call_1")⟩

def tcC5b : ToolCall :=
  ⟨ToolCallReq.savePrefs [(("topics"), Val.vStr ("tech,sports"))], ("call_2")⟩

def prefsC5 : Prefs :=
  [(("tone"), Val.vStr ("formal")), (("topics"), Val.vList [("tech"), ("sports")])]

/-- A Mode B process whose model requests the two `save_preferences` calls
of the C5 scenario on the first round-trip and answers with plain text on
any later one. -/
def cfgC5 : Config :=
  { openaiConfigured := true
    exa_news_fetch := fun _ _ => ExaResult.error ("")
    openai_responses := fun _ _ _ _ _ => ⟨(""), none⟩
    chat_completions := fun msgs =>
      if msgs = oaiInit reqC5msgs [] then Except.ok ⟨200, (""), ⟨(""), [tcC5a, tcC5b]⟩⟩
      else Except.ok ⟨200, (""), ⟨("Done"), []⟩⟩ }

/-- A Mode B process whose model answers the first round-trip with HTTP
status 304 (a non-2xx status below the 400 cutoff of the code) carrying one
`save_preferences` tool call, and plain text afterwards. -/
def cfg304 : Config :=
  { openaiConfigured := true
    exa_news_fetch := fun _ _ => ExaResult.error ("")
    openai_responses := fun _ _ _ _ _ => ⟨(""), none⟩
    chat_completions := fun msgs =>
      if msgs = oaiInit [] [] then
        Except.ok ⟨304, (""),
          ⟨(""), [⟨ToolCallReq.savePrefs [(("tone"), Val.vStr ("x"))], ("1")⟩]⟩⟩
      else Except.ok ⟨200, (""), ⟨("done"), []⟩⟩ }

/-- A Mode B process whose model call always comes back as HTTP 500 with a
tool call in the (ignored) message body. -/
def cfg500 : Config :=
  { openaiConfigured := true
    exa_news_fetch := fun _ _ => ExaResult.error ("")
    openai_responses := fun _ _ _ _ _ => ⟨(""), none⟩
    chat_completions := fun _ =>
      Except.ok ⟨500, ("boom"),
        ⟨("hi"), [⟨ToolCallReq.savePrefs [(("tone"), Val.vStr ("x"))], ("1")⟩]⟩⟩ }

/-! Dict lemmas: `pset` stores its key and leaves every other key alone. -/

theorem pget_map_overwrite (p : Prefs) (k : String) (v : Val)
    (hc : (p.map Prod.fst).contains k = true) :
    pget (p.map (fun kv => if kv.1 = k then (k, v) else kv)) k = some v := by
  induction p with
  | nil => simp at hc
  | cons kv rest ih =>
      by_cases hk : kv.1 = k
      · simp [pget, hk]
      · have hc2 : (rest.map Prod.fst).contains k = true := by
          rw [List.map_cons, List.contains_cons] at hc
          rcases Bool.or_eq_true_iff.mp hc with hx | hx
          · exact absurd (beq_iff_eq.mp hx).symm hk
          · exact hx
        simpa [pget, hk] using ih hc2

theorem pget_append_single_self (p : Prefs) (k : String) (v : Val)
    (hc : (p.map Prod.fst).contains k = false) :
    pget (p ++ [(k, v)]) k = some v := by
  induction p with
  | nil => simp [pget]
  | cons kv rest ih =>
      rw [List.map_cons, List.contains_cons] at hc
      have hk : ¬ (kv.1 = k) := by
        intro hh
        rw [hh] at hc
        simp at hc
      have hc2 : (rest.map Prod.fst).contains k = false :=
        (Bool.or_eq_false_iff.mp hc).2
      simpa [pget, hk] using ih hc2

theorem pget_pset_self (p : Prefs) (k : String) (v : Val) :
    pget (pset p k v) k = some v := by
  unfold pset
  split
  next hc => exact pget_map_overwrite p k v hc
  next hc =>
    refine pget_append_single_self p k v ?_
    simp only [Bool.not_eq_true] at hc
    exact hc

theorem pget_map_overwrite_ne (p : Prefs) (k k2 : String) (v : Val) (h : k2 ≠ k) :
    pget (p.map (fun kv => if kv.1 = k then (k, v) else kv)) k2 = pget p k2 := by
  induction p with
  | nil => rfl
  | cons kv rest ih =>
      by_cases hk : kv.1 = k
      · have h1 : ¬ (k = k2) := fun hh => h hh.symm
        have h2 : ¬ (kv.1 = k2) := by rw [hk]; exact h1
        simp [pget, hk, h1, h2, ih]
      · by_cases hk2 : kv.1 = k2
        · simp [pget, hk, hk2, h]
        · simp [pget, hk, hk2, ih]

theorem pget_append_single_ne (p : Prefs) (k k2 : String) (v : Val) (h : k2 ≠ k) :
    pget (p ++ [(k, v)]) k2 = pget p k2 := by
  have h1 : ¬ (k = k2) := fun hh => h hh.symm
  induction p with
  | nil => simp [pget, h1]
  | cons kv rest ih =>
      by_cases hk2 : kv.1 = k2
      · simp [pget, hk2]
      · simp [pget, hk2, ih]

theorem pget_pset_ne (p : Prefs) (k k2 : String) (v : Val) (h : k2 ≠ k) :
    pget (pset p k v) k2 = pget p k2 := by
  unfold pset
  split
  next hc => exact pget_map_overwrite_ne p k k2 v h
  next hc => exact pget_append_single_ne p k k2 v h

/-! Preservation of keys through the save loop, the tool executor, the
tool loop, and the whole turn. -/

/-- One save step either leaves the dict alone or assigns its own key. -/
theorem saveStep_eq (f p : Prefs) (k : String) :
    saveStep f p k = p ∨ ∃ w, saveStep f p k = pset p k w := by
  unfold saveStep
  cases pget f k with
  | none => exact Or.inl rfl
  | some v =>
      by_cases hv : v = Val.vNull
      · exact Or.inl (by simp [hv])
      · by_cases ht : k = ("topics")
        · cases v with
          | vStr s => exact Or.inr ⟨Val.vList (splitTopics s), by simp [hv, ht]⟩
          | vList l => exact Or.inr ⟨Val.vList l, by simp [hv, ht]⟩
          | vNull => exact absurd rfl hv
          | vBool b => exact Or.inr ⟨Val.vBool b, by simp [hv, ht]⟩
          | vNum n => exact Or.inr ⟨Val.vNum n, by simp [hv, ht]⟩
        · exact Or.inr ⟨v, by simp [hv, ht]⟩

theorem saveStep_pget (f p : Prefs) (k k2 : String) (v2 : Val)
    (h : pget p k2 = some v2) :
    ∃ w, pget (saveStep f p k) k2 = some w ∧ (w = v2 ∨ k2 = k) := by
  rcases saveStep_eq f p k with he | ⟨w, he⟩
  · exact ⟨v2, by rw [he]; exact h, Or.inl rfl⟩
  · by_cases hk : k2 = k
    · subst hk
      exact ⟨w, by rw [he, pget_pset_self], Or.inr rfl⟩
    · exact ⟨v2, by rw [he, pget_pset_ne _ _ _ _ hk]; exact h, Or.inl rfl⟩

theorem saveFold_pget (f : Prefs) (ks : List String) (p : Prefs) (k2 : String) (v2 : Val)
    (h : pget p k2 = some v2) :
    ∃ w, pget (ks.foldl (saveStep f) p) k2 = some w ∧ (w = v2 ∨ k2 ∈ ks) := by
  induction ks generalizing p v2 with
  | nil => exact ⟨v2, h, Or.inl rfl⟩
  | cons k rest ih =>
      obtain ⟨w, hw, hc⟩ := saveStep_pget f p k k2 v2 h
      obtain ⟨w2, hw2, hc2⟩ := ih (saveStep f p k) w hw
      refine ⟨w2, by simpa using hw2, ?_⟩
      rcases hc2 with h2 | h2
      · rcases hc with h1 | h1
        · exact Or.inl (h2.trans h1)
        · exact Or.inr (by simp [h1])
      · exact Or.inr (List.mem_cons_of_mem _ h2)

theorem save_preferences_pget (p f : Prefs) (k2 : String) (v2 : Val)
    (h : pget p k2 = some v2) :
    ∃ w, pget (save_preferences p f) k2 = some w ∧ (w = v2 ∨ k2 ∈ recognizedKeys) :=
  saveFold_pget f recognizedKeys p k2 v2 h

theorem execToolCall_pget (cfg : Config) (p : Prefs) (tc : ToolCall) (k2 : String)
    (v2 : Val) (h : pget p k2 = some v2) :
    ∃ w, pget (execToolCall cfg p tc).2 k2 = some w ∧ (w = v2 ∨ k2 ∈ recognizedKeys) := by
  obtain ⟨req, cid⟩ := tc
  cases req with
  | fetchNews topic n => exact ⟨v2, by simpa [execToolCall] using h, Or.inl rfl⟩
  | summarizeNews a b c d e => exact ⟨v2, by simpa [execToolCall] using h, Or.inl rfl⟩
  | savePrefs fargs => simpa [execToolCall] using save_preferences_pget p fargs k2 v2 h
  | unknown nm => exact ⟨v2, by simpa [execToolCall] using h, Or.inl rfl⟩

theorem execToolCalls_pget (cfg : Config) (tcs : List ToolCall) (msgs : List OaiMsg)
    (p : Prefs) (k2 : String) (v2 : Val) (h : pget p k2 = some v2) :
    ∃ w, pget (execToolCalls cfg tcs msgs p).2 k2 = some w ∧
      (w = v2 ∨ k2 ∈ recognizedKeys) := by
  induction tcs generalizing msgs p v2 with
  | nil => exact ⟨v2, h, Or.inl rfl⟩
  | cons tc rest ih =>
      obtain ⟨w, hw, hc⟩ := execToolCall_pget cfg p tc k2 v2 h
      obtain ⟨w2, hw2, hc2⟩ := ih _ _ w hw
      refine ⟨w2, by simpa [execToolCalls] using hw2, ?_⟩
      rcases hc2 with h2 | h2
      · rcases hc with h1 | h1
        · exact Or.inl (h2.trans h1)
        · exact Or.inr h1
      · exact Or.inr h2

theorem toolLoop_pget (cfg : Config) (fuel : Nat) :
    ∀ msgs p r, toolLoop cfg fuel msgs p = some (Except.ok r) →
      ∀ k2 v2, pget p k2 = some v2 →
        ∃ w, pget r.preferences k2 = some w ∧ (w = v2 ∨ k2 ∈ recognizedKeys) := by
  induction fuel with
  | zero =>
      intro msgs p r hr
      simp [toolLoop] at hr
  | succ n ih =>
      intro msgs p r hr k2 v2 h
      rw [toolLoop] at hr
      split at hr
      · simp at hr
      · next resp heq =>
          by_cases hs : 400 ≤ resp.status
          · rw [if_pos hs] at hr
            simp only [Option.some.injEq, Except.ok.injEq] at hr
            subst hr
            exact ⟨v2, h, Or.inl rfl⟩
          · rw [if_neg hs] at hr
            split at hr
            · simp only [Option.some.injEq, Except.ok.injEq] at hr
              subst hr
              exact ⟨v2, h, Or.inl rfl⟩
            · next tc rest heq2 =>
                obtain ⟨w, hw, hc⟩ := execToolCalls_pget cfg (tc :: rest) msgs p k2 v2 h
                obtain ⟨w2, hw2, hc2⟩ := ih _ _ r hr k2 w hw
                refine ⟨w2, hw2, ?_⟩
                rcases hc2 with h2 | h2
                · rcases hc with h1 | h1
                  · exact Or.inl (h2.trans h1)
                  · exact Or.inr h1
                · exact Or.inr h2

theorem offlineTurn_preferences (cfg : Config) (p : Prefs) :
    (offlineTurn cfg p).preferences = p := by
  unfold offlineTurn
  rcases hq : questions.find? (fun kq => !truthyOpt (pget p kq.1)) with _ | kq <;>
    simp [hq]

theorem openai_chat_with_tools_pget (cfg : Config) (fuel : Nat)
    (messages : List Message) (p : Prefs) (r : OrchResult)
    (hr : openai_chat_with_tools cfg fuel messages p = some (Except.ok r))
    (k2 : String) (v2 : Val) (h : pget p k2 = some v2) :
    ∃ w, pget r.preferences k2 = some w ∧ (w = v2 ∨ k2 ∈ recognizedKeys) := by
  unfold openai_chat_with_tools at hr
  by_cases hA : cfg.openaiConfigured = false
  · rw [if_pos hA] at hr
    simp only [Option.some.injEq, Except.ok.injEq] at hr
    subst hr
    rw [offlineTurn_preferences]
    exact ⟨v2, h, Or.inl rfl⟩
  · rw [if_neg hA] at hr
    exact toolLoop_pget cfg fuel _ p r hr k2 v2 h

/-! The claims. -/

/-- C1: In Mode A (no reasoning-model credential configured), for every
preference snapshot missing at least one of the five recognized keys, the
orchestrator returns as its assistant reply exactly the fixed onboarding
question for the first unset key in the canonical order
tone, format, language, interaction, topics — regardless of which other
keys are set — and returns the preferences unchanged. -/
theorem offline_onboarding_asks_first_missing (cfg : Config) (fuel : Nat)
    (messages : List Message) (p : Prefs)
    (hA : cfg.openaiConfigured = false)
    (hmiss : ∃ k, k ∈ recognizedKeys ∧ truthyOpt (pget p k) = false) :
    ∃ k q, recognizedKeys.find? (fun k2 => !truthyOpt (pget p k2)) = some k ∧
      List.lookup k questions = some q ∧
      openai_chat_with_tools cfg fuel messages p = some (Except.ok ⟨q, p⟩) := by
  cases h1 : truthyOpt (pget p ("tone")) <;>
  cases h2 : truthyOpt (pget p ("format")) <;>
  cases h3 : truthyOpt (pget p ("language")) <;>
  cases h4 : truthyOpt (pget p ("interaction")) <;>
  cases h5 : truthyOpt (pget p ("topics")) <;>
    simp_all [openai_chat_with_tools, offlineTurn, questions, recognizedKeys,
      List.find?, List.lookup]

theorem offline_onboarding_asks_first_missing_witness :
    ∃ k q, recognizedKeys.find?
        (fun k2 => !truthyOpt (pget [(("format"), Val.vStr ("x"))] k2)) = some k ∧
      List.lookup k questions = some q ∧
      openai_chat_with_tools cfgA 0 [] [(("format"), Val.vStr ("x"))]
        = some (Except.ok ⟨q, [(("format"), Val.vStr ("x"))]⟩) :=
  offline_onboarding_asks_first_missing cfgA 0 [] [(("format"), Val.vStr ("x"))] rfl
    ⟨("tone"), by decide, by decide⟩

/-- C2 counterexample: applying the update topics := "tech" (a comma-free
string) to empty preferences does NOT store the string unchanged — the
save loop comma-splits every string topics value, so the stored value is
the one-element list containing "tech". -/
theorem save_topics_nocomma_counterexample :
    save_preferences [] [(("topics"), Val.vStr ("tech"))]
        = [(("topics"), Val.vList [("tech")])] ∧
    pget (save_preferences [] [(("topics"), Val.vStr ("tech"))]) ("topics")
        ≠ some (Val.vStr ("tech")) := by
  refine ⟨by decide, by decide⟩

/-- C2 amended: applying the update topics := "tech" to empty preferences
stores topics as the one-element sequence containing "tech": every string
value for topics is comma-split, trimmed and filtered, so a comma-free
value is wrapped into a singleton list rather than passed through. -/
theorem save_topics_nocomma_wrapped :
    save_preferences [] [(("topics"), Val.vStr ("tech"))]
        = [(("topics"), Val.vList [("tech")])] := by
  decide

/-- C3 counterexample: in Mode B, a transport-level failure of the
chat-completions call propagates out of the turn boundary as a fault — the
turn does not complete with an assistant message. -/
theorem chat_transport_fault_counterexample :
    chat cfgBfail 1 reqW = some (Except.error ("Connection timed out")) ∧
    turnCompletes (chat cfgBfail 1 reqW) = false := by
  refine ⟨rfl, rfl⟩

/-- C3 amended: whenever a turn completes with a response, that response
is the input messages unchanged plus exactly one appended assistant
message; in Mode A the turn always completes with some text. (In Mode B a
transport failure of the reasoning-model call escapes as a fault, and only
non-2xx HTTP responses are converted into diagnostic text.) -/
theorem chat_appends_single_assistant_message (cfg : Config) (fuel : Nat)
    (req : ChatRequest) :
    (cfg.openaiConfigured = false → turnCompletes (chat cfg fuel req) = true) ∧
    (∀ r : ChatResponse, chat cfg fuel req = some (Except.ok r) →
      ∃ t, r.messages = req.messages ++ [⟨("assistant"), t⟩]) := by
  constructor
  · intro hA
    simp [chat, openai_chat_with_tools, hA, turnCompletes]
  · intro r hr
    simp only [chat] at hr
    rcases ho : openai_chat_with_tools cfg fuel req.messages (req.preferences.getD [])
      with _ | res
    · rw [ho] at hr
      simp at hr
    · rcases res with e | result
      · rw [ho] at hr
        simp at hr
      · rw [ho] at hr
        simp only [Option.some.injEq, Except.ok.injEq] at hr
        exact ⟨result.assistant_message, by rw [← hr]⟩

theorem chat_appends_single_assistant_message_witness :
    turnCompletes (chat cfgA 1 reqW) = true ∧
    ∃ t, rW.messages = reqW.messages ++ [⟨("assistant"), t⟩] :=
  ⟨(chat_appends_single_assistant_message cfgA 1 reqW).1 rfl,
   (chat_appends_single_assistant_message cfgA 1 reqW).2 rW (by rfl)⟩

/-- C4: In Mode A with all five preferences set, the orchestrator walks the
topics preference in order (a single non-list value normalized to a
one-element list), calls the retrieval adapter with count 5 for each topic,
renders a successful fetch as the section `Topic: topic` newline summary
(the summary computed by `summarize_news` under the current style
configuration), a failed fetch as `Topic: topic` newline `Exa error: e`,
and joins the per-topic sections with a blank line. -/
theorem offline_fetch_builds_topic_sections (cfg : Config) (fuel : Nat)
    (messages : List Message) (p : Prefs)
    (hA : cfg.openaiConfigured = false)
    (hset : ∀ k ∈ recognizedKeys, truthyOpt (pget p k) = true) :
    ∃ tlist : List String,
      (match pget p ("topics") with
       | some (Val.vList l) => tlist = l
       | some v => tlist = [pyStr v]
       | none => tlist = [pyStr Val.vNull]) ∧
      openai_chat_with_tools cfg fuel messages p = some (Except.ok
        ⟨String.intercalate ("\n\n") (tlist.map (fun topic =>
          match cfg.exa_news_fetch topic 5 with
          | ExaResult.results rs =>
              ("Topic: ") ++ topic ++ ("\n") ++
                (summarize_news cfg rs (pgetStr p ("interaction") ("concise"))
                  (pgetStr p ("format") ("bullet points"))
                  (pgetStr p ("language") ("English"))
                  (pgetStr p ("tone") ("neutral"))).summary
          | ExaResult.error e => ("Topic: ") ++ topic ++ ("\nExa error: ") ++ e)),
         p⟩) := by
  have h1 := hset ("tone") (by simp [recognizedKeys])
  have h2 := hset ("format") (by simp [recognizedKeys])
  have h3 := hset ("language") (by simp [recognizedKeys])
  have h4 := hset ("interaction") (by simp [recognizedKeys])
  have h5 := hset ("topics") (by simp [recognizedKeys])
  refine ⟨(match pget p ("topics") with
    | some (Val.vList l) => l
    | some v => [pyStr v]
    | none => [pyStr Val.vNull]), ?_, ?_⟩
  · rcases hpt : pget p ("topics") with _ | v
    · simp
    · cases v <;> simp
  · simp [openai_chat_with_tools, hA, offlineTurn, questions, List.find?,
      h1, h2, h3, h4, h5]

theorem offline_fetch_builds_topic_sections_witness :
    openai_chat_with_tools cfgC4 0 [] prefsFull = some (Except.ok
      ⟨("Topic: ai\n- A: B\n\nTopic: climate\nExa error: boom"), prefsFull⟩) := by
  obtain ⟨tlist, ht, hmain⟩ :=
    offline_fetch_builds_topic_sections cfgC4 0 [] prefsFull rfl (by decide)
  have ht2 : tlist = [("ai"), ("climate")] := by simpa [prefsFull, pget] using ht
  subst ht2
  exact hmain.trans (by rfl)

/-- C5: In Mode B, tool calls within one model response are executed in
the order received: after the batch save_preferences(tone := "formal")
then save_preferences(topics := "tech,sports"), the stored preferences are
tone = "formal" and topics = the list tech, sports; one round-trip is not
enough to finish the turn (the loop goes back to the model after appending
both tool results and one system entry carrying the updated preference
snapshot), and the second round-trip produces the final text. -/
theorem modeB_batch_order_second_roundtrip :
    openai_chat_with_tools cfgC5 2 reqC5msgs [] = some (Except.ok ⟨("Done"), prefsC5⟩) ∧
    openai_chat_with_tools cfgC5 1 reqC5msgs [] = none ∧
    (execToolCalls cfgC5 [tcC5a, tcC5b] (oaiInit reqC5msgs []) []).2 = prefsC5 ∧
    (execToolCalls cfgC5 [tcC5a, tcC5b] (oaiInit reqC5msgs []) []).1
      = oaiInit reqC5msgs [] ++
        [⟨("tool"), ("\x7b\"ok\": true, \"preferences\": \x7b\"tone\": \"formal\"\x7d\x7d"),
          some ("call_1")⟩,
         ⟨("tool"),
          ("\x7b\"ok\": true, \"preferences\": \x7b\"tone\": \"formal\", \"topics\": [\"tech\", \"sports\"]\x7d\x7d"),
          some ("call_2")⟩] ∧
    toolLoop cfgC5 2 (oaiInit reqC5msgs []) []
      = toolLoop cfgC5 1
          ((execToolCalls cfgC5 [tcC5a, tcC5b] (oaiInit reqC5msgs []) []).1 ++
            [⟨("system"),
              ("Updated preferences JSON: \x7b\"tone\": \"formal\", \"topics\": [\"tech\", \"sports\"]\x7d"),
              none⟩])
          prefsC5 :=
  ⟨rfl, rfl, rfl, by rfl, by rfl⟩

/-- C6 counterexample: a chat-completions response with the non-2xx status
304 does not terminate the turn — its save_preferences tool call is
executed (the final preferences contain tone = "x") and the loop performs
a second round-trip whose text becomes the reply; one round-trip of fuel
is not enough, showing the loop continued past the non-2xx response. -/
theorem modeB_status304_executes_tools :
    openai_chat_with_tools cfg304 2 [] []
        = some (Except.ok ⟨("done"), [(("tone"), Val.vStr ("x"))]⟩) ∧
    openai_chat_with_tools cfg304 1 [] [] = none := by
  refine ⟨rfl, rfl⟩

/-- C6 amended: in Mode B, a reasoning-model call that returns an HTTP
status of 400 or above terminates the loop immediately: the turn ends with
the single diagnostic assistant message `OpenAI error status: detail`, no
tool call from that response is executed (its message is ignored
entirely), and the preference snapshot accumulated so far is returned. -/
theorem modeB_http_error_terminates (cfg : Config) (fuel : Nat) (msgs : List OaiMsg)
    (prefs : Prefs) (status : Nat) (detail : String) (m : ModelMsg)
    (hm : cfg.chat_completions msgs = Except.ok ⟨status, detail, m⟩)
    (hs : 400 ≤ status) :
    toolLoop cfg (fuel + 1) msgs prefs = some (Except.ok
      ⟨("OpenAI error ") ++ toString status ++ (": ") ++ detail, prefs⟩) := by
  rw [toolLoop, hm]
  simp [hs]

theorem modeB_http_error_terminates_witness :
    toolLoop cfg500 1 [] [] = some (Except.ok ⟨("OpenAI error 500: boom"), []⟩) := by
  have h := modeB_http_error_terminates cfg500 0 [] [] 500 ("boom")
    ⟨("hi"), [⟨ToolCallReq.savePrefs [(("tone"), Val.vStr ("x"))], ("1")⟩]⟩ rfl
    (by decide)
  exact h.trans (by rfl)

/-- C7: with no language-model credential configured, summarize_news is a
pure function of its items alone: it always returns the per-item bullet
lines joined by newlines, its output is independent of the style arguments
and of the other oracles (determinism), and on the single item with title
"A" and summary "B" it returns exactly `- A: B`. -/
theorem summarize_news_offline_bullets (cfg cfg2 : Config) (items : List Article)
    (st fo la tn st2 fo2 la2 tn2 : String)
    (h : cfg.openaiConfigured = false) (h2 : cfg2.openaiConfigured = false) :
    summarize_news cfg items st fo la tn
        = ⟨String.intercalate ("\n") (items.map bulletLine), none⟩ ∧
    summarize_news cfg items st fo la tn = summarize_news cfg2 items st2 fo2 la2 tn2 ∧
    summarize_news cfg [⟨some ("A"), none, some ("B"), none⟩] st fo la tn
        = ⟨("- A: B"), none⟩ := by
  refine ⟨?_, ?_, ?_⟩
  · unfold summarize_news
    rw [h]
    rfl
  · unfold summarize_news
    rw [h, h2]
    rfl
  · unfold summarize_news
    rw [h]
    rfl

theorem summarize_news_offline_bullets_witness :
    (summarize_news cfgA [⟨some ("A"), none, some ("B"), none⟩] ("a") ("b") ("c") ("d")
        = ⟨String.intercalate ("\n")
            (([⟨some ("A"), none, some ("B"), none⟩] : List Article).map bulletLine),
           none⟩) ∧
    (summarize_news cfgA [⟨some ("A"), none, some ("B"), none⟩] ("a") ("b") ("c") ("d")
        = summarize_news cfgC4 [⟨some ("A"), none, some ("B"), none⟩]
            ("e") ("f") ("g") ("h")) ∧
    (summarize_news cfgA [⟨some ("A"), none, some ("B"), none⟩] ("a") ("b") ("c") ("d")
        = ⟨("- A: B"), none⟩) :=
  summarize_news_offline_bullets cfgA cfgC4 [⟨some ("A"), none, some ("B"), none⟩]
    ("a") ("b") ("c") ("d") ("e") ("f") ("g") ("h") rfl rfl

/-- C8: applying the update topics := "tech, sports" (a text value with a
comma) to empty preferences stores topics as the sequence tech, sports:
the string is split on commas, each token trimmed, empty tokens dropped. -/
theorem save_topics_comma_splits :
    save_preferences [] [(("topics"), Val.vStr ("tech, sports"))]
        = [(("topics"), Val.vList [("tech"), ("sports")])] := by
  decide

/-- C9: a topics update whose comma-separated tokens are all blank (such
as " , ") stores the empty list, which is falsy — so it reverts the topics
preference to the unset state used by the completeness check: after such
an update the onboarding question loop always finds a missing key. -/
theorem save_topics_blank_string_unsets (p : Prefs) :
    pget (save_preferences p [(("topics"), Val.vStr (" , "))]) ("topics")
        = some (Val.vList []) ∧
    truthyOpt (pget (save_preferences p [(("topics"), Val.vStr (" , "))]) ("topics"))
        = false ∧
    questions.all (fun kq =>
      truthyOpt (pget (save_preferences p [(("topics"), Val.vStr (" , "))]) kq.1))
        = false := by
  have hsplit : splitTopics (" , ") = [] := by decide
  have hs : save_preferences p [(("topics"), Val.vStr (" , "))]
      = pset p ("topics") (Val.vList []) := by
    simp [save_preferences, recognizedKeys, saveStep, pget, hsplit]
  have hg : pget (save_preferences p [(("topics"), Val.vStr (" , "))]) ("topics")
      = some (Val.vList []) := by
    rw [hs]
    exact pget_pset_self p _ _
  refine ⟨hg, by rw [hg]; rfl, ?_⟩
  have h5 : truthyOpt (pget (save_preferences p [(("topics"), Val.vStr (" , "))])
      ("topics")) = false := by
    rw [hg]
    rfl
  simp [questions, List.all, h5]

theorem save_topics_blank_string_unsets_witness :
    pget (save_preferences prefsFull [(("topics"), Val.vStr (" , "))]) ("topics")
        = some (Val.vList []) ∧
    truthyOpt (pget (save_preferences prefsFull [(("topics"), Val.vStr (" , "))])
        ("topics")) = false ∧
    questions.all (fun kq =>
      truthyOpt (pget (save_preferences prefsFull [(("topics"), Val.vStr (" , "))])
        kq.1)) = false :=
  save_topics_blank_string_unsets prefsFull

/-- C10: no operation within a turn deletes a preference key: every key
present in the caller-supplied snapshot — including unrecognized keys — is
present in the returned updatedPreferences, with its original value unless
it is one of the five recognized keys (which a save_preferences update may
overwrite). -/
theorem chat_never_deletes_pref_keys (cfg : Config) (fuel : Nat) (req : ChatRequest)
    (r : ChatResponse) (hr : chat cfg fuel req = some (Except.ok r))
    (k : String) (v : Val) (hk : pget (req.preferences.getD []) k = some v) :
    ∃ w, pget r.updatedPreferences k = some w ∧ (w = v ∨ k ∈ recognizedKeys) := by
  simp only [chat] at hr
  rcases ho : openai_chat_with_tools cfg fuel req.messages (req.preferences.getD [])
    with _ | res
  · rw [ho] at hr
    simp at hr
  · rcases res with e | result
    · rw [ho] at hr
      simp at hr
    · rw [ho] at hr
      simp only [Option.some.injEq, Except.ok.injEq] at hr
      subst hr
      simpa using openai_chat_with_tools_pget cfg fuel req.messages _ result ho k v hk

theorem chat_never_deletes_pref_keys_witness :
    ∃ w, pget (ChatResponse.mk
        [⟨("assistant"),
          ("Preferred Tone of Voice (e.g., formal, casual, enthusiastic)?")⟩]
        [(("custom"), Val.vStr ("z"))]).updatedPreferences ("custom") = some w ∧
      (w = Val.vStr ("z") ∨ ("custom") ∈ recognizedKeys) :=
  chat_never_deletes_pref_keys cfgA 1 ⟨[], some [(("custom"), Val.vStr ("z"))]⟩
    (ChatResponse.mk
      [⟨("assistant"),
        ("Preferred Tone of Voice (e.g., formal, casual, enthusiastic)?")⟩]
      [(("custom"), Val.vStr ("z"))])
    (by rfl) ("custom") (Val.vStr ("z")) (by rfl)

end NewsAgent
